import Mathlib

/-!
Shallow embedding of the PMDSA core (HarbingerOfFire/PMDSA) and proofs about
the specification's claims.  Python floats are modelled by exact numbers: `ℚ`
where the code only adds, multiplies, divides and compares (stats.py,
star_find/find.py), and `ℝ` where it calls transcendental functions
(FITS/wcs.py, measure.py).  Where Python would raise `ZeroDivisionError`
(x/0.0), the real-valued model uses Lean's total division (x/0 = 0); theorems
about such inputs are read as statements about the failing computation, and
the zero denominator is exposed explicitly where it matters.
-/

namespace Stats

/-! ## stats.py — `sigma_clip` / `sigma_clipped_stats`

A data array is a `List (Option ℚ)`; `none` plays the part of a NaN sample.
A rejection mask is a `List Bool` of the same length. -/

/-- `np.median`: sort the samples, take the middle one (odd count) or the mean
of the two middle ones (even count).  Since `≤` on `ℚ` is total and
antisymmetric, every sorting algorithm returns the same list, so the
structurally recursive `insertionSort` (which the kernel can evaluate) stands
in for numpy's sort.  The empty case is unreachable inside `sigma_clip` (the
loop breaks on an empty surviving set first). -/
def npMedian (l : List ℚ) : ℚ :=
  let s := l.insertionSort (· ≤ ·)
  if l.length % 2 = 1 then s.getD (l.length / 2) 0
  else (s.getD (l.length / 2 - 1) 0 + s.getD (l.length / 2) 0) / 2

/-- `np.mean` of a flat sample list. -/
def npMean (l : List ℚ) : ℚ := l.sum / l.length

/-- The population variance (`np.std` with `ddof=0`, squared). -/
def npVar (l : List ℚ) : ℚ := ((l.map fun x => (x - npMean l) ^ 2).sum) / l.length

/-- The rejection test `np.abs(data - med) > sigma * std` of `sigma_clip`,
squared on both sides: for `sigma ≥ 0` and `std = sqrt var` it is equivalent
to `(x - med)^2 > sigma^2 * var`, which keeps the test decidable over `ℚ`. -/
def clipCond (x med sigma var : ℚ) : Bool := decide ((x - med) ^ 2 > sigma ^ 2 * var)

/-- `np.isnan(data)`: the initial mask of `sigma_clip`. -/
def isnanMask (d : List (Option ℚ)) : List Bool := d.map Option.isNone

/-- `data[~mask]`: the surviving samples, in order. -/
def survivors (d : List (Option ℚ)) (m : List Bool) : List ℚ :=
  (d.zip m).filterMap fun p => if p.2 then none else p.1

/-- The mask `(|data - med| > sigma*std) | np.isnan(data)` built from given
median and variance.  A NaN sample fails the comparison but is flagged by the
`isnan` disjunct, hence `true`. -/
def clipApply (med v sigma : ℚ) (d : List (Option ℚ)) : List Bool :=
  d.map fun x? =>
    match x? with
    | none => true
    | some x => clipCond x med sigma v

/-- One pass of the `sigma_clip` loop body: median and variance of the current
survivors, then the fresh mask. -/
def clipStep (d : List (Option ℚ)) (sigma : ℚ) (m : List Bool) : List Bool :=
  clipApply (npMedian (survivors d m)) (npVar (survivors d m)) sigma d

/-- The `for _ in range(maxiters)` loop of `sigma_clip`: break when the
surviving set is empty or when the freshly built mask equals the current one;
otherwise adopt the new mask and continue. -/
def clipLoop (d : List (Option ℚ)) (sigma : ℚ) : ℕ → List Bool → List Bool
  | 0, m => m
  | k + 1, m =>
    if survivors d m = [] then m
    else if clipStep d sigma m = m then m
    else clipLoop d sigma k (clipStep d sigma m)

/-- The final rejection mask of `sigma_clip(data, sigma, maxiters)`, starting
from the NaN mask.  `sigma_clipped_stats` uses `maxiters = 5`. -/
def sigma_clip_mask (d : List (Option ℚ)) (sigma : ℚ) (maxiters : ℕ) : List Bool :=
  clipLoop d sigma maxiters (isnanMask d)

/-- The clipped data a finished clip hands back (`np.where(mask, nan, data)`,
or the masked array of `masked=True`): rejected positions become NaN. -/
def applyMask (d : List (Option ℚ)) (m : List Bool) : List (Option ℚ) :=
  (d.zip m).map fun p => if p.2 then none else p.1

/-- A mask covers every NaN position of the data. -/
def NanCovered (d : List (Option ℚ)) (m : List Bool) : Prop :=
  List.Forall₂ (fun x? b => x? = none → b = true) d m

theorem nanCovered_isnanMask (d : List (Option ℚ)) : NanCovered d (isnanMask d) := by
  induction d with
  | nil => exact List.Forall₂.nil
  | cons x d ih => exact List.Forall₂.cons (fun h => by simp [h]) ih

theorem nanCovered_clipApply (med v sigma : ℚ) (d : List (Option ℚ)) :
    NanCovered d (clipApply med v sigma d) := by
  induction d with
  | nil => exact List.Forall₂.nil
  | cons x d ih =>
    refine List.Forall₂.cons ?_ ih
    rintro rfl
    rfl

theorem nanCovered_clipLoop (d : List (Option ℚ)) (sigma : ℚ) (k : ℕ) (m : List Bool)
    (h : NanCovered d m) : NanCovered d (clipLoop d sigma k m) := by
  induction k generalizing m with
  | zero => exact h
  | succ k ih =>
    rw [clipLoop]
    split
    · exact h
    · split
      · exact h
      · exact ih _ (nanCovered_clipApply _ _ _ _)

theorem applyMask_cons (x : Option ℚ) (b : Bool) (d : List (Option ℚ)) (m : List Bool) :
    applyMask (x :: d) (b :: m) = (if b then none else x) :: applyMask d m := rfl

theorem survivors_cons (x : Option ℚ) (b : Bool) (d : List (Option ℚ)) (m : List Bool) :
    survivors (x :: d) (b :: m) =
      (if b then [] else x.toList) ++ survivors d m := by
  cases b with
  | false =>
    cases x with
    | none => simp [survivors]
    | some y => simp [survivors]
  | true => simp [survivors]

/-- Re-reading the clipped data, the NaN mask is exactly the final mask. -/
theorem isnanMask_applyMask (d : List (Option ℚ)) (m : List Bool)
    (h : NanCovered d m) : isnanMask (applyMask d m) = m := by
  induction d generalizing m with
  | nil =>
    cases m with
    | nil => rfl
    | cons b m => cases h
  | cons x d ih =>
    cases m with
    | nil => cases h
    | cons b m =>
      cases h with
      | cons hx hrest =>
        cases b with
        | true => simpa [applyMask_cons, isnanMask] using ih m hrest
        | false =>
          have hx2 : x.isNone = false := by
            cases x with
            | none => exact absurd (hx rfl) (by simp)
            | some y => rfl
          simpa [applyMask_cons, isnanMask, hx2] using ih m hrest

/-- Masked-off samples do not change the surviving set. -/
theorem survivors_applyMask (d : List (Option ℚ)) (m : List Bool) :
    survivors (applyMask d m) m = survivors d m := by
  induction d generalizing m with
  | nil => cases m <;> rfl
  | cons x d ih =>
    cases m with
    | nil => rfl
    | cons b m =>
      rw [applyMask_cons, survivors_cons, survivors_cons, ih m]
      cases b <;> simp

/-- If one clipping pass reproduces the mask, it also reproduces it on the
masked data. -/
theorem clipApply_applyMask (med v sigma : ℚ) (d : List (Option ℚ)) (m : List Bool)
    (h : clipApply med v sigma d = m) : clipApply med v sigma (applyMask d m) = m := by
  induction d generalizing m with
  | nil =>
    subst h
    rfl
  | cons x d ih =>
    subst h
    have tail := ih (clipApply med v sigma d) rfl
    show clipApply med v sigma
        (applyMask (x :: d) ((match x with | none => true | some y => clipCond y med sigma v)
          :: clipApply med v sigma d)) = _
    cases x with
    | none =>
      rw [applyMask_cons]
      simpa [clipApply] using tail
    | some y =>
      cases hc : clipCond y med sigma v with
      | true =>
        rw [applyMask_cons]
        simpa [clipApply, hc] using tail
      | false =>
        rw [applyMask_cons]
        simpa [clipApply, hc] using tail

/-- A ten-sample array whose clip never converges within `maxiters = 5`:
each pass rejects exactly one further sample. -/
def clipData : List (Option ℚ) :=
  [some 0, some 0, some 0, some 0, some 10, some 20, some 40, some 80, some 160, some 320]

/-- A four-sample array whose clip converges in two passes. -/
def clipDataConv : List (Option ℚ) := [some 0, some 1, some 2, some 100]

/-- The converged mask of `clipDataConv` at `sigma = 1`. -/
def clipMaskConv : List Bool := [true, false, true, true]

end Stats

/-- The Python exceptions the modelled code can raise. -/
inductive PyExc where
  | typeError : PyExc
  | keyError : String → PyExc
  | assertionError : String → PyExc
  | valueError : String → PyExc
deriving DecidableEq

namespace StarFind

/-! ## star_find/find.py — `StarFinder.analyze_stars` (photometry)

An image is a function `ℕ → ℕ → ℚ` together with its shape `ny × nx`
(`image.shape` gives `ny, nx`); candidates are `(cy, cx)` row/column pairs of
naturals, as `find_stars` returns them. -/

/-- All pixel coordinates `(i, j)` of an `ny × nx` image, row-major. -/
def pixList (ny nx : ℕ) : List (ℕ × ℕ) :=
  (List.range ny).flatMap fun i => (List.range nx).map fun j => (i, j)

/-- The image values inside the disk of radius `r` around `(cx, cy)`,
row-major: the numpy mask `(x - cx)**2 + (y - cy)**2 <= r**2` indexed into the
image.  `analyze_stars` builds the same set through a clipped bounding box
`[max(cx-r,0), min(cx+r+1,nx)) × [max(cy-r,0), min(cy+r+1,ny))`; since every
pixel of the disk satisfies `|x-cx| ≤ r` and `|y-cy| ≤ r`, the box is a pure
optimisation and selects exactly the same pixels. -/
def diskValues (ny nx : ℕ) (img : ℕ → ℕ → ℚ) (cx cy : ℕ) (r : ℕ) : List ℚ :=
  (pixList ny nx).filterMap fun p =>
    if ((p.2 : ℤ) - cx) ^ 2 + ((p.1 : ℤ) - cy) ^ 2 ≤ (r : ℤ) ^ 2 then some (img p.1 p.2)
    else none

/-- The local sky estimate `2*median - mean` over the fixed disk of radius 3
(`sky_radius = 3`) around the candidate. -/
def skyValue (ny nx : ℕ) (img : ℕ → ℕ → ℚ) (cx cy : ℕ) : ℚ :=
  2 * Stats.npMedian (diskValues ny nx img cx cy 3) -
    Stats.npMean (diskValues ny nx img cx cy 3)

/-- The stopping test `np.any(values_in_circle <= sky_value)` at radius `r`. -/
def anyLE (ny nx : ℕ) (img : ℕ → ℕ → ℚ) (cx cy : ℕ) (r : ℕ) (sky : ℚ) : Bool :=
  (diskValues ny nx img cx cy r).any fun v => decide (v ≤ sky)

/-- `sum_within_radius`: total flux inside the disk of radius `r`. -/
def sum_within_radius (ny nx : ℕ) (img : ℕ → ℕ → ℚ) (cx cy : ℕ) (r : ℕ) : ℚ :=
  (diskValues ny nx img cx cy r).sum

/-- The aperture-growth loop `while star_radius < max_radius` with
`max_radius = 50`: the radii tested are `r, r+1, ...` for `fuel` steps, and
the loop answers the first radius whose disk already touches the sky value,
or `none` when the fuel (the number of radii below the cap) runs out.
The source enters with `star_radius = 1`, so exactly the radii `1..49` are
tested: `apertureGo ... 49 1`. -/
def apertureGo (ny nx : ℕ) (img : ℕ → ℕ → ℚ) (cx cy : ℕ) (sky : ℚ) :
    ℕ → ℕ → Option ℕ
  | 0, _ => none
  | fuel + 1, r => if anyLE ny nx img cx cy r sky then some r
      else apertureGo ny nx img cx cy sky fuel (r + 1)

/-- One record of `self.stars`: the tuple `(cx, cy, flux, star_radius, dist)`.
The source stores `dist = sqrt((cx-ref_x)^2 + (cy-ref_y)^2)` and sorts by it;
the model stores the square `dist2` instead (the radicand), which keeps the
record rational and, since `sqrt` is monotone, induces the same order. -/
structure StarRecord where
  cx : ℕ
  cy : ℕ
  flux : ℚ
  radius : ℕ
  dist2 : ℚ
deriving DecidableEq, Repr

/-- The per-candidate body of `analyze_stars`: local sky, aperture growth over
radii `1..49`, then flux, squared distance and the record -- or no record at
all when the aperture loop exhausts the cap. -/
def analyzeOne (ny nx : ℕ) (img : ℕ → ℕ → ℚ) (refx refy : ℚ) (c : ℕ × ℕ) :
    Option StarRecord :=
  let cy := c.1
  let cx := c.2
  let sky := skyValue ny nx img cx cy
  match apertureGo ny nx img cx cy sky 49 1 with
  | none => none
  | some r =>
      some ⟨cx, cy, sum_within_radius ny nx img cx cy r, r,
        ((cx : ℚ) - refx) ^ 2 + ((cy : ℚ) - refy) ^ 2⟩

/-- `if ref_point[0] is None: ref_x, ref_y = nx // 2, ny // 2` -- the
image-centre default is taken only when the first component of the supplied
pair is `None`; otherwise the pair is unpacked as given. -/
def resolveRef (ny nx : ℕ) (rp : Option ℚ × ℚ) : ℚ × ℚ :=
  match rp.1 with
  | none => ((nx / 2 : ℕ), (ny / 2 : ℕ))
  | some rx => (rx, rp.2)

/-- The sort order of `self.stars.sort(key=lambda star: star[4])`. -/
def byDist (a b : StarRecord) : Prop := a.dist2 ≤ b.dist2

instance : DecidableRel byDist := fun a b => inferInstanceAs (Decidable (a.dist2 ≤ b.dist2))

instance : IsTotal StarRecord byDist := ⟨fun a b => le_total a.dist2 b.dist2⟩

instance : IsTrans StarRecord byDist := ⟨fun _ _ _ h h2 => le_trans h h2⟩

/-- `analyze_stars(image, minima_coords, ref_point)` with the detector's
accumulated `self.stars` made explicit: the new records are appended to the
accumulated list and the whole list is sorted ascending by distance and
returned (Python's stable `list.sort` is modelled by the stable
`insertionSort`). -/
def analyze_stars (prev : List StarRecord) (ny nx : ℕ) (img : ℕ → ℕ → ℚ)
    (coords : List (ℕ × ℕ)) (rp : Option ℚ × ℚ) : List StarRecord :=
  (prev ++ coords.filterMap
    (analyzeOne ny nx img (resolveRef ny nx rp).1 (resolveRef ny nx rp).2)).insertionSort byDist

/-- The full signature `analyze_stars(self, image, minima_coords,
ref_point=None)`: when the argument is omitted, `ref_point` is `None` and the
first statement `ref_point[0]` subscripts `None`, raising `TypeError`. -/
def analyze_stars_py (prev : List StarRecord) (ny nx : ℕ) (img : ℕ → ℕ → ℚ)
    (coords : List (ℕ × ℕ)) (rp : Option (Option ℚ × ℚ)) :
    Except PyExc (List StarRecord) :=
  match rp with
  | none => .error .typeError
  | some rp => .ok (analyze_stars prev ny nx img coords rp)

/-- The aperture loop answers `none` exactly when no tested radius satisfies
the stopping test. -/
theorem apertureGo_eq_none_iff (ny nx : ℕ) (img : ℕ → ℕ → ℚ) (cx cy : ℕ) (sky : ℚ) :
    ∀ fuel r, apertureGo ny nx img cx cy sky fuel r = none ↔
      ∀ t, r ≤ t → t < r + fuel → anyLE ny nx img cx cy t sky = false := by
  intro fuel
  induction fuel with
  | zero =>
    intro r
    constructor
    · intro _ t h1 h2
      omega
    · intro _
      rfl
  | succ fuel ih =>
    intro r
    cases ha : anyLE ny nx img cx cy r sky with
    | true =>
      simp only [apertureGo, ha, if_true]
      constructor
      · intro h
        exact absurd h (by simp)
      · intro H
        have := H r le_rfl (by omega)
        rw [ha] at this
        exact absurd this (by simp)
    | false =>
      simp only [apertureGo, ha, Bool.false_eq_true, if_false]
      rw [ih (r + 1)]
      constructor
      · intro H t h1 h2
        rcases Nat.eq_or_lt_of_le h1 with rfl | hlt
        · exact ha
        · exact H t hlt (by omega)
      · intro H t h1 h2
        exact H t (by omega) (by omega)

/-- What the aperture loop guarantees about an answered radius: it is a tested
radius, it satisfies the stopping test, and every earlier tested radius
fails it. -/
theorem apertureGo_eq_some (ny nx : ℕ) (img : ℕ → ℕ → ℚ) (cx cy : ℕ) (sky : ℚ) :
    ∀ fuel r s, apertureGo ny nx img cx cy sky fuel r = some s →
      r ≤ s ∧ s < r + fuel ∧ anyLE ny nx img cx cy s sky = true ∧
        ∀ t, r ≤ t → t < s → anyLE ny nx img cx cy t sky = false := by
  intro fuel
  induction fuel with
  | zero =>
    intro r s h
    exact absurd h (by simp [apertureGo])
  | succ fuel ih =>
    intro r s h
    cases ha : anyLE ny nx img cx cy r sky with
    | true =>
      simp only [apertureGo, ha, if_true, Option.some.injEq] at h
      subst h
      exact ⟨le_rfl, by omega, ha, fun t h1 h2 => by omega⟩
    | false =>
      simp only [apertureGo, ha, Bool.false_eq_true, if_false] at h
      obtain ⟨h1, h2, h3, h4⟩ := ih (r + 1) s h
      refine ⟨by omega, by omega, h3, fun t ht1 ht2 => ?_⟩
      rcases Nat.eq_or_lt_of_le ht1 with rfl | hlt
      · exact ha
      · exact h4 t hlt ht2

/-- A flat 5×5 all-ones image. -/
def imgFlat : ℕ → ℕ → ℚ := fun _ _ => 1

/-- A 9×9 image of ones with a single hot pixel (value 100) at row 4,
column 1: inside the sky disk of the candidate `(4, 4)` it drags the mean
above the median, so the local sky estimate `2*median - mean` drops below
every pixel value and the aperture never stops growing. -/
def imgHot : ℕ → ℕ → ℚ := fun i j => if i = 4 ∧ j = 1 then 100 else 1

/-! ### star_find/find.py — `local_minima_sliding_window` / `find_stars`

The candidate-extraction stage.  Its input `d` is the normalized edge map, an
`m × n` array of floats modelled as `ℕ → ℕ → ℝ` with its shape; `X` is the
threshold multiplier (`find_stars` passes `X = 2.0`). -/

/-- `np.mean(data)` over the whole `m × n` edge map. -/
noncomputable def npMeanR (m n : ℕ) (d : ℕ → ℕ → ℝ) : ℝ :=
  (∑ i ∈ Finset.range m, ∑ j ∈ Finset.range n, d i j) / (m * n)

/-- `np.std(data)` (population, `ddof=0`) over the whole edge map. -/
noncomputable def npStdR (m n : ℕ) (d : ℕ → ℕ → ℝ) : ℝ :=
  Real.sqrt
    ((∑ i ∈ Finset.range m, ∑ j ∈ Finset.range n, (d i j - npMeanR m n d) ^ 2) / (m * n))

/-- `threshold = mean + X * sigma`. -/
noncomputable def threshold (m n : ℕ) (d : ℕ → ℕ → ℝ) (X : ℝ) : ℝ :=
  npMeanR m n d + X * npStdR m n d

/-- The `local_min` test of the 3×3 window at position `(i, j)`: the centre
`d (i+1) (j+1)` is strictly below the eight other window entries (the window
flattened row-major with index 4, the centre, deleted). -/
def isLocalMin (d : ℕ → ℕ → ℝ) (i j : ℕ) : Prop :=
  d (i + 1) (j + 1) < d i j ∧ d (i + 1) (j + 1) < d i (j + 1) ∧
  d (i + 1) (j + 1) < d i (j + 2) ∧ d (i + 1) (j + 1) < d (i + 1) j ∧
  d (i + 1) (j + 1) < d (i + 1) (j + 2) ∧ d (i + 1) (j + 1) < d (i + 2) j ∧
  d (i + 1) (j + 1) < d (i + 2) (j + 1) ∧ d (i + 1) (j + 1) < d (i + 2) (j + 2)

/-- `result = np.logical_and(local_min, mask[1:-1, 1:-1])`: the boolean array
over window positions `(i, j)`, `i < m-2`, `j < n-2`; the cropped threshold
mask entry at `(i, j)` is `data[i+1, j+1] > threshold`. -/
def resultProp (m n : ℕ) (d : ℕ → ℕ → ℝ) (X : ℝ) (i j : ℕ) : Prop :=
  isLocalMin d i j ∧ d (i + 1) (j + 1) > threshold m n d X

/-- `minima_coords = np.argwhere(result) + 1` as a set of `(row, col)`
pairs: the window positions marked by `result`, offset by one per axis. -/
def minimaCoords (m n : ℕ) (d : ℕ → ℕ → ℝ) (X : ℝ) : Set (ℕ × ℕ) :=
  {rc | ∃ i j, i < m - 2 ∧ j < n - 2 ∧ resultProp m n d X i j ∧ rc = (i + 1, j + 1)}

end StarFind

/-- C7: an `(r, c)` pair is returned by the candidate-extraction stage iff it
is an interior pixel of the `m × n` normalized edge map (one-pixel border
excluded), its edge value is strictly less than the edge values of all eight
of its neighbours, and its own edge value exceeds `mean + X * std` of the
whole edge map; the returned integer coordinates are the window coordinates
offset-corrected by `+1` per axis. -/
theorem detector_candidate_iff (m n : ℕ) (d : ℕ → ℕ → ℝ) (X : ℝ) (r c : ℕ) :
    (r, c) ∈ StarFind.minimaCoords m n d X ↔
      1 ≤ r ∧ r + 1 < m ∧ 1 ≤ c ∧ c + 1 < n ∧
      d r c < d (r - 1) (c - 1) ∧ d r c < d (r - 1) c ∧ d r c < d (r - 1) (c + 1) ∧
      d r c < d r (c - 1) ∧ d r c < d r (c + 1) ∧
      d r c < d (r + 1) (c - 1) ∧ d r c < d (r + 1) c ∧ d r c < d (r + 1) (c + 1) ∧
      d r c > StarFind.npMeanR m n d + X * StarFind.npStdR m n d := by
  constructor
  · rintro ⟨i, j, hi, hj, ⟨⟨g1, g2, g3, g4, g5, g6, g7, g8⟩, hth⟩, heq⟩
    obtain ⟨rfl, rfl⟩ : r = i + 1 ∧ c = j + 1 := by
      rw [Prod.mk.injEq] at heq
      exact heq
    have e1 : i + 1 - 1 = i := by omega
    have e2 : j + 1 - 1 = j := by omega
    rw [e1, e2]
    exact ⟨by omega, by omega, by omega, by omega,
      g1, g2, g3, g4, g5, g6, g7, g8, hth⟩
  · rintro ⟨h1, h2, h3, h4, g1, g2, g3, g4, g5, g6, g7, g8, hth⟩
    refine ⟨r - 1, c - 1, by omega, by omega, ?_, by rw [Prod.mk.injEq]; omega⟩
    have e1 : r - 1 + 1 = r := by omega
    have e2 : c - 1 + 1 = c := by omega
    have e3 : r - 1 + 2 = r + 1 := by omega
    have e4 : c - 1 + 2 = c + 1 := by omega
    rw [StarFind.resultProp, StarFind.isLocalMin, e1, e2, e3, e4]
    exact ⟨⟨g1, g2, g3, g4, g5, g6, g7, g8⟩, hth⟩

/-- C3 (amended): aperture growth starts at radius 1 and grows by 1 per step,
but only the radii 1..49 (strictly below the cap `max_radius = 50`) are ever
tested; the loop stops at the first tested radius whose disk holds a pixel
`≤` the local sky value, and when no tested radius satisfies the test the
candidate yields no record at all (it is dropped), rather than a record at
the cap. -/
theorem aperture_growth_policy (ny nx : ℕ) (img : ℕ → ℕ → ℚ) (refx refy : ℚ)
    (c : ℕ × ℕ) :
    (StarFind.analyzeOne ny nx img refx refy c = none ↔
      ∀ t, 1 ≤ t → t < 50 →
        StarFind.anyLE ny nx img c.2 c.1 t (StarFind.skyValue ny nx img c.2 c.1) = false) ∧
    ∀ rec, StarFind.analyzeOne ny nx img refx refy c = some rec →
      rec.cx = c.2 ∧ rec.cy = c.1 ∧ 1 ≤ rec.radius ∧ rec.radius < 50 ∧
      StarFind.anyLE ny nx img c.2 c.1 rec.radius (StarFind.skyValue ny nx img c.2 c.1)
        = true ∧
      (∀ t, 1 ≤ t → t < rec.radius →
        StarFind.anyLE ny nx img c.2 c.1 t (StarFind.skyValue ny nx img c.2 c.1) = false) ∧
      rec.flux = StarFind.sum_within_radius ny nx img c.2 c.1 rec.radius ∧
      rec.dist2 = ((c.2 : ℚ) - refx) ^ 2 + ((c.1 : ℚ) - refy) ^ 2 := by
  cases hgo : StarFind.apertureGo ny nx img c.2 c.1
      (StarFind.skyValue ny nx img c.2 c.1) 49 1 with
  | none =>
    have hno := (StarFind.apertureGo_eq_none_iff ny nx img c.2 c.1 _ 49 1).1 hgo
    constructor
    · constructor
      · intro _ t h1 h2
        exact hno t h1 (by omega)
      · intro _
        simp only [StarFind.analyzeOne, hgo]
    · intro rec h
      simp only [StarFind.analyzeOne, hgo] at h
      exact Option.noConfusion h
  | some r =>
    obtain ⟨h1, h2, h3, h4⟩ := StarFind.apertureGo_eq_some ny nx img c.2 c.1 _ 49 1 r hgo
    constructor
    · constructor
      · intro h
        simp only [StarFind.analyzeOne, hgo] at h
        exact Option.noConfusion h
      · intro H
        exact absurd h3 (by simp [H r h1 (by omega)])
    · intro rec h
      simp only [StarFind.analyzeOne, hgo, Option.some.injEq] at h
      subst h
      refine ⟨rfl, rfl, h1, ?_, h3, fun t ht1 ht2 => h4 t ht1 ht2, rfl, rfl⟩
      show r < 50
      omega

set_option maxRecDepth 100000 in
/-- C3 (counterexample): on the hot-pixel image, the candidate at row 4,
column 4 has local sky `-70/29`; no pixel in any tested disk is `≤` it, so
the aperture loop exhausts every radius below the cap and `analyze_stars`
returns no record for the candidate -- it does not return a record with the
cap radius 50. -/
theorem aperture_cap_drops_candidate :
    StarFind.analyze_stars [] 9 9 StarFind.imgHot [(4, 4)] (some 0, 0) = [] ∧
    ∀ t < 50, 1 ≤ t →
      StarFind.anyLE 9 9 StarFind.imgHot 4 4 t
        (StarFind.skyValue 9 9 StarFind.imgHot 4 4) = false := by
  have hsky : StarFind.skyValue 9 9 StarFind.imgHot 4 4 = -70 / 29 := by
    with_unfolding_all decide
  have hall : ∀ t < 50, 1 ≤ t →
      StarFind.anyLE 9 9 StarFind.imgHot 4 4 t (-70 / 29) = false := by
    with_unfolding_all decide
  have hgo : StarFind.apertureGo 9 9 StarFind.imgHot 4 4
      (StarFind.skyValue 9 9 StarFind.imgHot 4 4) 49 1 = none := by
    rw [hsky, StarFind.apertureGo_eq_none_iff]
    intro t ht1 ht2
    exact hall t (by omega) ht1
  have hone : StarFind.analyzeOne 9 9 StarFind.imgHot 0 0 (4, 4) = none := by
    simp only [StarFind.analyzeOne, hgo]
  refine ⟨?_, ?_⟩
  · simp [StarFind.analyze_stars, StarFind.resolveRef, hone, List.insertionSort]
  · rw [hsky]
    exact hall

/-- C4 (amended): `analyze_stars` is accumulating, not per-call: the returned
list is a permutation of the instance's previously accumulated records
together with the records of this call's candidates, sorted ascending by
distance to the reference point; in particular every record of an earlier
call on the same instance reappears in the result. -/
theorem analyze_stars_accumulates (prev : List StarFind.StarRecord) (ny nx : ℕ)
    (img : ℕ → ℕ → ℚ) (coords : List (ℕ × ℕ)) (rp : Option ℚ × ℚ) :
    (StarFind.analyze_stars prev ny nx img coords rp).Perm
      (prev ++ coords.filterMap
        (StarFind.analyzeOne ny nx img (StarFind.resolveRef ny nx rp).1
          (StarFind.resolveRef ny nx rp).2)) ∧
    List.Sorted StarFind.byDist (StarFind.analyze_stars prev ny nx img coords rp) ∧
    ∀ rec ∈ prev, rec ∈ StarFind.analyze_stars prev ny nx img coords rp := by
  refine ⟨List.perm_insertionSort _ _, List.sorted_insertionSort _ _, ?_⟩
  intro rec hrec
  exact (List.perm_insertionSort _ _).mem_iff.2 (List.mem_append_left _ hrec)

set_option maxRecDepth 100000 in
/-- C4 (counterexample): on a flat 5×5 image, a first call with candidate
(2,2) yields one record; a second call on the same instance with the single
candidate (1,1) returns two records -- the earlier call's record is still in
the result, although the same call on a fresh instance yields exactly one. -/
theorem analyze_stars_keeps_earlier_records :
    (StarFind.analyze_stars
        (StarFind.analyze_stars [] 5 5 StarFind.imgFlat [(2, 2)] (some 0, 0))
        5 5 StarFind.imgFlat [(1, 1)] (some 0, 0)).length = 2 ∧
    (StarFind.analyze_stars [] 5 5 StarFind.imgFlat [(1, 1)] (some 0, 0)).length = 1 := by
  with_unfolding_all decide

/-- C9: calling `analyze_stars` without a reference point leaves `ref_point`
at its default `None`, and the very first use `ref_point[0]` subscripts
`None`: the call raises `TypeError` instead of falling back to the image
centre. -/
theorem analyze_stars_no_ref_point_raises (prev : List StarFind.StarRecord)
    (ny nx : ℕ) (img : ℕ → ℕ → ℚ) (coords : List (ℕ × ℕ)) :
    StarFind.analyze_stars_py prev ny nx img coords none =
      Except.error PyExc.typeError := rfl

namespace FITSm

/-! ## FITS/fits.py + FITS/header.py — header parsing and validation

A decoded 80-byte card is a `List Char`; the byte stream's card sequence is a
`List (List Char)`.  The `Header` object is a Python dict; only update and
lookup are used, so it is modelled as an association list where the most
recent write is consed on front and `List.lookup` finds it first. -/

/-- The whitespace characters `str.strip()` removes. -/
def isPySpace (c : Char) : Bool :=
  c = ' ' ∨ c = '\t' ∨ c = '\n' ∨ c = '\r' ∨ c = '\x0b' ∨ c = '\x0c'

/-- Python `str.strip()`. -/
def strip (l : List Char) : List Char :=
  ((l.dropWhile isPySpace).reverse.dropWhile isPySpace).reverse

/-- Python `"sub" in line`. -/
def hasSub (pat l : List Char) : Bool :=
  (List.range (l.length + 1)).any fun i => pat.isPrefixOf (l.drop i)

/-- `self.header[key] = value`: dict update, most recent write wins. -/
def hset (h : List (List Char × List Char)) (k v : List Char) :
    List (List Char × List Char) := (k, v) :: h

/-- The card loop of `_read_header`: read cards until one whose stripped
content is exactly `END`; split every other card on the first `/` (comment),
then on `=`; exactly two parts populate the header with stripped key/value;
otherwise (`ValueError` on unpacking) the comment-stripped line is appended
to the history when it contains `HISTORY`, else skipped.  `none` when the
card list is exhausted with no `END` card (the Python loop would then keep
reading empty strings forever and never return). -/
def parseCards :
    List (List Char) → List (List Char × List Char) → List (List Char) →
      Option (List (List Char × List Char) × List (List Char))
  | [], _, _ => none
  | line :: rest, h, hist =>
    if strip line = "END".toList then some (h, hist)
    else
      let l1 := (line.splitOn '/').headD []
      match l1.splitOn '=' with
      | [k, v] => parseCards rest (hset h (strip k) (strip v)) hist
      | _ =>
        if hasSub ("HISTORY".toList) l1 then parseCards rest h (hist ++ [l1])
        else parseCards rest h hist

/-- `self.header[key]`: dict lookup, raising `KeyError(key)` when absent. -/
def lookupE (h : List (List Char × List Char)) (k : List Char) :
    Except PyExc (List Char) :=
  match List.lookup k h with
  | some v => .ok v
  | none => .error (.keyError (String.mk k))

/-- Model of Python `int(str)` on a stripped header value: an optional sign
followed by decimal digits. -/
def parseInt? (l : List Char) : Option ℤ :=
  let digits? : List Char → Option ℤ := fun ds =>
    if ds ≠ [] ∧ ds.all (fun c => '0' ≤ c ∧ c ≤ '9') then
      some (ds.foldl (fun a c => a * 10 + ((c.toNat : ℤ) - 48)) 0)
    else none
  match l with
  | '-' :: rest => (digits? rest).map (fun z => -z)
  | '+' :: rest => digits? rest
  | _ => digits? l

/-- `int(self.header[key])`: lookup then integer conversion
(`ValueError` on a malformed literal). -/
def intAt (h : List (List Char × List Char)) (k : List Char) : Except PyExc ℤ :=
  match lookupE h k with
  | .error e => .error e
  | .ok v =>
    match parseInt? v with
    | some z => .ok z
    | none => .error (.valueError (String.mk v))

/-- `assert self.header["SIMPLE"] == "T"`. -/
def checkSimple (h : List (List Char × List Char)) : Except PyExc Unit :=
  match lookupE h ("SIMPLE".toList) with
  | .error e => .error e
  | .ok s =>
    if s = "T".toList then .ok ()
    else .error (.assertionError ("Not a FITS file"))

/-- `assert int(self.header["BITPIX"]) in [8, 16, 32, 64]`. -/
def checkBitpix (h : List (List Char × List Char)) : Except PyExc Unit :=
  match intAt h ("BITPIX".toList) with
  | .error e => .error e
  | .ok b =>
    if b = 8 ∨ b = 16 ∨ b = 32 ∨ b = 64 then .ok ()
    else .error (.assertionError ("Unsupported BITPIX value"))

/-- `assert int(self.header["NAXIS"]) == 2`. -/
def checkNaxis (h : List (List Char × List Char)) : Except PyExc Unit :=
  match intAt h ("NAXIS".toList) with
  | .error e => .error e
  | .ok n =>
    if n = 2 then .ok ()
    else .error (.assertionError ("Only 2D images supported"))

/-- `assert int(self.header["NAXIS1"]) > 0 and int(self.header["NAXIS2"]) > 0`
with Python's short-circuit `and`: `NAXIS2` is only looked up (and can only
raise `KeyError`) after `int(NAXIS1) > 0` holds. -/
def checkDims (h : List (List Char × List Char)) : Except PyExc Unit :=
  match intAt h ("NAXIS1".toList) with
  | .error e => .error e
  | .ok n1 =>
    if 0 < n1 then
      match intAt h ("NAXIS2".toList) with
      | .error e => .error e
      | .ok n2 =>
        if 0 < n2 then .ok ()
        else .error (.assertionError ("Invalid image dimensions"))
    else .error (.assertionError ("Invalid image dimensions"))

/-- The `assert` sequence `_read_header` runs after the `END` card, in source
order; each failure (`KeyError`, `ValueError` or `AssertionError`) propagates
out of `FITS.__init__`. -/
def validateHeader (h : List (List Char × List Char)) : Except PyExc Unit :=
  (checkSimple h).bind fun _ =>
    (checkBitpix h).bind fun _ =>
      (checkNaxis h).bind fun _ => checkDims h

/-- `_read_header`: parse cards up to `END`, then validate; the header is
handed out only when validation passes, so a failing file exposes no partial
`Header` (and `_read_data` never runs, so no `Image` either). -/
def read_header (cards : List (List Char)) :
    Option (Except PyExc (List (List Char × List Char))) :=
  (parseCards cards [] []).map fun p =>
    match validateHeader p.1 with
    | .error e => .error e
    | .ok _ => .ok p.1

/-- A card list whose header passes the `END` card, carries valid `SIMPLE`,
`BITPIX`, `NAXIS` and `NAXIS1`, but no `NAXIS2`. -/
def cardsNoNaxis2 : List (List Char) :=
  [("SIMPLE  =                    T / conforms to FITS").toList,
   ("BITPIX  =                   16").toList,
   ("NAXIS   =                    2").toList,
   ("NAXIS1  =                  100").toList,
   ("END").toList]

/-- The header `parseCards` builds from `cardsNoNaxis2` (latest write first),
and its empty history. -/
def hdrNoNaxis2 : List (List Char × List Char) :=
  [("NAXIS1".toList, "100".toList), ("NAXIS".toList, "2".toList),
   ("BITPIX".toList, "16".toList), ("SIMPLE".toList, "T".toList)]

end FITSm

/-- C8: parsing a header that reaches its `END` card with valid `SIMPLE`,
`BITPIX`, `NAXIS` and `NAXIS1` entries but no `NAXIS2` key fails with the
key error naming `NAXIS2` (the `KeyError("NAXIS2")` that plays the spec's
`FormatError` role here), and the failing result carries no header: no
partial `Header` or `Image` reaches the caller. -/
theorem header_missing_naxis2 (cards : List (List Char))
    (h : List (List Char × List Char)) (hist : List (List Char))
    (hp : FITSm.parseCards cards [] [] = some (h, hist))
    (hS : List.lookup ("SIMPLE".toList) h = some ("T".toList))
    (hB : ∃ b, FITSm.intAt h ("BITPIX".toList) = Except.ok b ∧
      (b = 8 ∨ b = 16 ∨ b = 32 ∨ b = 64))
    (hN : FITSm.intAt h ("NAXIS".toList) = Except.ok 2)
    (hN1 : ∃ z, FITSm.intAt h ("NAXIS1".toList) = Except.ok z ∧ 0 < z)
    (hN2 : List.lookup ("NAXIS2".toList) h = none) :
    FITSm.read_header cards = some (Except.error (PyExc.keyError ("NAXIS2"))) := by
  obtain ⟨b, hb, hbv⟩ := hB
  obtain ⟨z, hz, hzpos⟩ := hN1
  have hN2e : FITSm.intAt h ("NAXIS2".toList) =
      Except.error (PyExc.keyError ("NAXIS2")) := by
    rw [FITSm.intAt, FITSm.lookupE, hN2]
    rfl
  have c1 : FITSm.checkSimple h = Except.ok () := by
    rw [FITSm.checkSimple, FITSm.lookupE, hS]
    rfl
  have c2 : FITSm.checkBitpix h = Except.ok () := by
    rw [FITSm.checkBitpix, hb]
    exact if_pos hbv
  have c3 : FITSm.checkNaxis h = Except.ok () := by
    rw [FITSm.checkNaxis, hN]
    rfl
  have c4 : FITSm.checkDims h = Except.error (PyExc.keyError ("NAXIS2")) := by
    rw [FITSm.checkDims, hz, hN2e]
    exact if_pos hzpos
  have hval : FITSm.validateHeader h = Except.error (PyExc.keyError ("NAXIS2")) := by
    rw [FITSm.validateHeader, c1, c2, c3, c4]
    rfl
  have hmap : FITSm.read_header cards =
      some (match FITSm.validateHeader h with
        | .error e => .error e
        | .ok _ => .ok h) := by
    rw [FITSm.read_header, hp]
    rfl
  rw [hmap, hval]

/-- C8 (witness): the concrete five-card header `cardsNoNaxis2` parses past
`END` and fails with the key error naming `NAXIS2`. -/
theorem header_missing_naxis2_witness :
    FITSm.read_header FITSm.cardsNoNaxis2 =
      some (Except.error (PyExc.keyError ("NAXIS2"))) :=
  header_missing_naxis2 FITSm.cardsNoNaxis2 FITSm.hdrNoNaxis2 []
    (by rfl) (by rfl)
    ⟨16, by rfl, by decide⟩ (by rfl) ⟨100, by rfl, by decide⟩ (by rfl)

namespace WCSm

/-! ## FITS/wcs.py — the `WCS` class

Real-valued model of the float computation.  Lean's total division stands in
for Python's: where a denominator is zero the Python code raises
`ZeroDivisionError` instead of returning the model's value, which the
relevant theorems point out. -/

/-- `math.atan2(y, x)`. -/
noncomputable def atan2 (y x : ℝ) : ℝ :=
  if 0 < x then Real.arctan (y / x)
  else if x < 0 then
    (if 0 ≤ y then Real.arctan (y / x) + Real.pi else Real.arctan (y / x) - Real.pi)
  else if 0 < y then Real.pi / 2
  else if y < 0 then -(Real.pi / 2)
  else 0

/-- `math.degrees`. -/
noncomputable def degrees (x : ℝ) : ℝ := x * 180 / Real.pi

/-- `math.radians`. -/
noncomputable def radians (x : ℝ) : ℝ := x * Real.pi / 180

/-- The WCS attributes read from the header in `WCS.__init__` (the `CTYPE`
strings are carried but never computed on, so they are omitted). -/
structure WCS where
  CD1_1 : ℝ
  CD1_2 : ℝ
  CD2_1 : ℝ
  CD2_2 : ℝ
  CRPIX1 : ℝ
  CRPIX2 : ℝ
  CRVAL1 : ℝ
  CRVAL2 : ℝ

/-- `sky_angle()`: `CROTA2 = degrees(atan2(CD2_1, CD1_1))`, computed once in
`__init__` and cached. -/
noncomputable def CROTA2 (w : WCS) : ℝ := degrees (atan2 w.CD2_1 w.CD1_1)

/-- `sky_scale()`: `CDELT1 = CD1_1 / cos(radians(CROTA2))`. -/
noncomputable def CDELT1 (w : WCS) : ℝ := w.CD1_1 / Real.cos (radians (CROTA2 w))

/-- `sky_scale()`: `CDELT2 = CD2_2 / cos(radians(CROTA2))`. -/
noncomputable def CDELT2 (w : WCS) : ℝ := w.CD2_2 / Real.cos (radians (CROTA2 w))

/-- `world_to_pixel(RA, Dec)` as the source computes it:
`pix = (coord - CRVAL) / CDELT + CRPIX`, one axis at a time. -/
noncomputable def world_to_pixel (w : WCS) (RA Dec : ℝ) : ℝ × ℝ :=
  ((RA - w.CRVAL1) / CDELT1 w + w.CRPIX1, (Dec - w.CRVAL2) / CDELT2 w + w.CRPIX2)

/-- `pixel_to_world(x, y)`: `coord = (pix - CRPIX) * CDELT + CRVAL`. -/
noncomputable def pixel_to_world (w : WCS) (px py : ℝ) : ℝ × ℝ :=
  ((px - w.CRPIX1) * CDELT1 w + w.CRVAL1, (py - w.CRPIX2) * CDELT2 w + w.CRVAL2)

/-- Modelled from the spec, for comparison with the source's
`world_to_pixel`: the claimed general form inverts the full 2×2 CD matrix,
applies the inverse to `(RA - CRVAL1, Dec - CRVAL2)` and adds `CRPIX`. -/
noncomputable def world_to_pixel_claimed (w : WCS) (RA Dec : ℝ) : ℝ × ℝ :=
  ((w.CD2_2 * (RA - w.CRVAL1) - w.CD1_2 * (Dec - w.CRVAL2)) /
      (w.CD1_1 * w.CD2_2 - w.CD1_2 * w.CD2_1) + w.CRPIX1,
   (w.CD1_1 * (Dec - w.CRVAL2) - w.CD2_1 * (RA - w.CRVAL1)) /
      (w.CD1_1 * w.CD2_2 - w.CD1_2 * w.CD2_1) + w.CRPIX2)

theorem radians_degrees (x : ℝ) : radians (degrees x) = x := by
  unfold radians degrees
  field_simp

theorem atan2_zero_pos {x : ℝ} (hx : 0 < x) : atan2 0 x = 0 := by
  unfold atan2
  rw [if_pos hx, zero_div, Real.arctan_zero]

theorem atan2_zero_zero : atan2 0 0 = 0 := by
  unfold atan2
  norm_num

theorem atan2_pos_zero {y : ℝ} (hy : 0 < y) : atan2 y 0 = Real.pi / 2 := by
  unfold atan2
  rw [if_neg (lt_irrefl 0), if_neg (lt_irrefl 0), if_pos hy]

/-- For a diagonal-positive matrix the derived rotation vanishes. -/
theorem CROTA2_of_diag {w : WCS} (h21 : w.CD2_1 = 0) (h11 : 0 < w.CD1_1) :
    CROTA2 w = 0 := by
  unfold CROTA2 degrees
  rw [h21, atan2_zero_pos h11, zero_mul, zero_div]

theorem CDELT1_of_diag {w : WCS} (h21 : w.CD2_1 = 0) (h11 : 0 < w.CD1_1) :
    CDELT1 w = w.CD1_1 := by
  unfold CDELT1 radians
  rw [CROTA2_of_diag h21 h11, zero_mul, zero_div, Real.cos_zero, div_one]

theorem CDELT2_of_diag {w : WCS} (h21 : w.CD2_1 = 0) (h11 : 0 < w.CD1_1) :
    CDELT2 w = w.CD2_2 := by
  unfold CDELT2 radians
  rw [CROTA2_of_diag h21 h11, zero_mul, zero_div, Real.cos_zero, div_one]

/-- The counterexample WCS for C1: a shear matrix `CD = [[1, 1], [0, 1]]`
with `CRPIX = CRVAL = 0`. -/
noncomputable def wShear : WCS := ⟨1, 1, 0, 1, 0, 0, 0, 0⟩

/-- The counterexample WCS for C5: `CD = [[1, 1], [1, 0]]` (determinant −1,
hence invertible) with `CRPIX = CRVAL = 0`. -/
noncomputable def wDegen : WCS := ⟨1, 1, 1, 0, 0, 0, 0, 0⟩

/-- A plain identity-CD WCS used as the C5 witness instance. -/
noncomputable def wId : WCS := ⟨1, 0, 0, 1, 10, 20, 180, -30⟩

theorem CDELT1_wId : CDELT1 wId = 1 := CDELT1_of_diag rfl one_pos

theorem CDELT2_wId : CDELT2 wId = 1 := CDELT2_of_diag rfl one_pos

theorem CROTA2_wDegen : CROTA2 wDegen = degrees (Real.pi / 4) := by
  unfold CROTA2 wDegen atan2
  norm_num [Real.arctan_one]

theorem degrees_pi_div_two : degrees (Real.pi / 2) = 90 := by
  unfold degrees
  field_simp
  ring

/-- `atan2` recovers an angle in `(-pi/2, pi/2)` from a positively scaled
sine/cosine pair. -/
theorem atan2_same_angle (k t : ℝ) (hk : 0 < k) (h1 : -(Real.pi / 2) < t)
    (h2 : t < Real.pi / 2) : atan2 (k * Real.sin t) (k * Real.cos t) = t := by
  have hc : 0 < Real.cos t := Real.cos_pos_of_mem_Ioo ⟨h1, h2⟩
  have hx : 0 < k * Real.cos t := mul_pos hk hc
  unfold atan2
  rw [if_pos hx, mul_div_mul_left _ _ (ne_of_gt hk), ← Real.tan_eq_sin_div_cos,
    Real.arctan_tan h1 h2]

theorem CDELT2_wDegen : CDELT2 wDegen = 0 := by
  unfold CDELT2
  rw [CROTA2_wDegen, radians_degrees]
  show (0 : ℝ) / _ = 0
  rw [zero_div]

end WCSm

/-- C1 (counterexample): for the shear matrix `CD = [[1, 1], [0, 1]]` (with
`CRPIX = CRVAL = 0`) the source's `world_to_pixel` at `(RA, Dec) = (0, 1)`
returns `(0, 1)` -- the diagonal CDELT form, which ignores the off-diagonal
CD term -- while the full-matrix-inverse transform of the claim returns
`(-1, 1)`. -/
theorem world_to_pixel_ignores_cross_term :
    WCSm.world_to_pixel WCSm.wShear 0 1 = (0, 1) ∧
    WCSm.world_to_pixel_claimed WCSm.wShear 0 1 = (-1, 1) ∧
    WCSm.world_to_pixel WCSm.wShear 0 1 ≠ WCSm.world_to_pixel_claimed WCSm.wShear 0 1 := by
  have h1 : WCSm.CDELT1 WCSm.wShear = 1 := WCSm.CDELT1_of_diag rfl one_pos
  have h2 : WCSm.CDELT2 WCSm.wShear = 1 := WCSm.CDELT2_of_diag rfl one_pos
  have ha : WCSm.world_to_pixel WCSm.wShear 0 1 = (0, 1) := by
    unfold WCSm.world_to_pixel
    rw [h1, h2]
    show ((0 - 0) / 1 + 0, ((1 : ℝ) - 0) / 1 + 0) = (0, 1)
    norm_num
  have hb : WCSm.world_to_pixel_claimed WCSm.wShear 0 1 = (-1, 1) := by
    unfold WCSm.world_to_pixel_claimed WCSm.wShear
    norm_num
  refine ⟨ha, hb, ?_⟩
  rw [ha, hb]
  intro h
  rw [Prod.mk.injEq] at h
  exact absurd h.1 (by norm_num)

/-- C1 (amended): `world_to_pixel` implements the restricted diagonal form
`pix = (coord - CRVAL) / CDELT + CRPIX` with the `sky_scale()` CDELT values,
ignoring the off-diagonal CD terms and raising no `SingularTransformError`;
it agrees with the claimed full-matrix-inverse transform in the restricted
case `CD1_2 = CD2_1 = 0` with `CD1_1 > 0` and `CD2_2 ≠ 0`. -/
theorem world_to_pixel_diagonal_case (w : WCSm.WCS) (RA Dec : ℝ)
    (h12 : w.CD1_2 = 0) (h21 : w.CD2_1 = 0) (h11 : 0 < w.CD1_1)
    (h22 : w.CD2_2 ≠ 0) :
    WCSm.world_to_pixel w RA Dec = WCSm.world_to_pixel_claimed w RA Dec := by
  unfold WCSm.world_to_pixel WCSm.world_to_pixel_claimed
  rw [WCSm.CDELT1_of_diag h21 h11, WCSm.CDELT2_of_diag h21 h11, h12, h21]
  have h11n : w.CD1_1 ≠ 0 := ne_of_gt h11
  rw [Prod.mk.injEq]
  constructor
  · field_simp
    ring
  · field_simp
    ring

/-- C1 (witness): a concrete diagonal WCS on which the source transform and
the claimed full-inverse transform coincide. -/
theorem world_to_pixel_diagonal_case_witness :
    WCSm.world_to_pixel ⟨2, 0, 0, 3, 5, 6, 7, 8⟩ 9 10 =
      WCSm.world_to_pixel_claimed ⟨2, 0, 0, 3, 5, 6, 7, 8⟩ 9 10 :=
  world_to_pixel_diagonal_case ⟨2, 0, 0, 3, 5, 6, 7, 8⟩ 9 10 rfl rfl
    (by norm_num) (by norm_num)

/-- C5 (counterexample): `CD = [[1, 1], [1, 0]]` has determinant −1, so it is
invertible, yet the derived `CDELT2` is `0 / cos(45°) = 0`: in the model the
round trip collapses the Dec component to `CRVAL2 = 0` (off by 1 from the
input `Dec = 1`, far beyond 1e-9), and in Python `world_to_pixel` divides by
`CDELT2 = 0.0` and raises `ZeroDivisionError` instead of returning at all. -/
theorem roundtrip_fails_for_nonsingular_cd :
    WCSm.wDegen.CD1_1 * WCSm.wDegen.CD2_2 - WCSm.wDegen.CD1_2 * WCSm.wDegen.CD2_1 ≠ 0 ∧
    WCSm.CDELT2 WCSm.wDegen = 0 ∧
    ¬ |(WCSm.pixel_to_world WCSm.wDegen
          (WCSm.world_to_pixel WCSm.wDegen 0 1).1
          (WCSm.world_to_pixel WCSm.wDegen 0 1).2).2 - 1| ≤ 1 / 10 ^ 9 := by
  refine ⟨by unfold WCSm.wDegen; norm_num, WCSm.CDELT2_wDegen, ?_⟩
  have hy : (WCSm.world_to_pixel WCSm.wDegen 0 1).2 = 0 := by
    unfold WCSm.world_to_pixel
    rw [WCSm.CDELT2_wDegen]
    show ((1 : ℝ) - WCSm.wDegen.CRVAL2) / 0 + WCSm.wDegen.CRPIX2 = 0
    rw [div_zero]
    show (0 : ℝ) + 0 = 0
    norm_num
  have hd : (WCSm.pixel_to_world WCSm.wDegen
      (WCSm.world_to_pixel WCSm.wDegen 0 1).1
      (WCSm.world_to_pixel WCSm.wDegen 0 1).2).2 = 0 := by
    unfold WCSm.pixel_to_world
    rw [hy, WCSm.CDELT2_wDegen]
    show ((0 : ℝ) - 0) * 0 + 0 = 0
    norm_num
  rw [hd]
  norm_num

/-- C5 (amended): whenever both derived scales `CDELT1` and `CDELT2` are
nonzero (the condition under which `world_to_pixel` divides by nonzero
numbers -- neither implied by nor implying an invertible CD matrix), the
round trip `pixel_to_world(world_to_pixel(ra, dec))` returns `(ra, dec)`
exactly in real arithmetic, in particular within 1e-9 per component. -/
theorem roundtrip_exact (w : WCSm.WCS) (ra dec : ℝ)
    (h1 : WCSm.CDELT1 w ≠ 0) (h2 : WCSm.CDELT2 w ≠ 0) :
    WCSm.pixel_to_world w (WCSm.world_to_pixel w ra dec).1
      (WCSm.world_to_pixel w ra dec).2 = (ra, dec) := by
  unfold WCSm.pixel_to_world WCSm.world_to_pixel
  rw [Prod.mk.injEq]
  constructor
  · field_simp
    ring
  · field_simp
    ring

/-- C5 (witness): the identity-CD WCS `wId` has nonzero derived scales, and
the round trip at `(ra, dec) = (181, -29)` is exact. -/
theorem roundtrip_exact_witness :
    WCSm.pixel_to_world WCSm.wId (WCSm.world_to_pixel WCSm.wId 181 (-29)).1
      (WCSm.world_to_pixel WCSm.wId 181 (-29)).2 = (181, -29) :=
  roundtrip_exact WCSm.wId 181 (-29)
    (by rw [WCSm.CDELT1_wId]; norm_num) (by rw [WCSm.CDELT2_wId]; norm_num)

namespace Measure

/-! ## measure.py — the `measure` class

`Star` and the three measurement methods over a `WCSm.WCS`.  The gnomonic
deprojection in `position_angle` divides by `rho = sqrt(xi^2 + eta^2)`; at
`rho = 0` (a star exactly at the reference pixel) Python evaluates `0.0/0.0`
and raises `ZeroDivisionError` (or produces NaN for numpy scalars), while the
real model's total division yields the limit value instead; `rho` is exposed
as a definition so that the zero denominator can be stated. -/

/-- The `Star` dataclass: pixel position and flux. -/
structure Star where
  x : ℝ
  y : ℝ
  flux : ℝ

/-- Step 1–2 of `position_angle`: shift by `CRPIX`, apply the CD matrix --
the first tangent-plane coordinate `xi = CD1_1*dx + CD1_2*dy`. -/
noncomputable def xi (w : WCSm.WCS) (s : Star) : ℝ :=
  w.CD1_1 * (s.x - w.CRPIX1) + w.CD1_2 * (s.y - w.CRPIX2)

/-- The second tangent-plane coordinate `eta = CD2_1*dx + CD2_2*dy`. -/
noncomputable def eta (w : WCSm.WCS) (s : Star) : ℝ :=
  w.CD2_1 * (s.x - w.CRPIX1) + w.CD2_2 * (s.y - w.CRPIX2)

/-- `rho = sqrt(xi**2 + eta**2)` -- the denominator of the gnomonic
deprojection. -/
noncomputable def rho (w : WCSm.WCS) (s : Star) : ℝ :=
  Real.sqrt (xi w s ^ 2 + eta w s ^ 2)

/-- `c = atan(rho)`. -/
noncomputable def cAng (w : WCSm.WCS) (s : Star) : ℝ := Real.arctan (rho w s)

/-- `delta = asin(cos(c)*sin(delta0) + (eta*sin(c)*cos(delta0))/rho)`. -/
noncomputable def deltaSph (w : WCSm.WCS) (s : Star) : ℝ :=
  Real.arcsin (Real.cos (cAng w s) * Real.sin (WCSm.radians w.CRVAL2) +
    (eta w s * Real.sin (cAng w s) * Real.cos (WCSm.radians w.CRVAL2)) / rho w s)

/-- `alpha = alpha0 + atan2(xi*sin(c), rho*cos(delta0)*cos(c) -
eta*sin(delta0)*sin(c))`. -/
noncomputable def alphaSph (w : WCSm.WCS) (s : Star) : ℝ :=
  WCSm.radians w.CRVAL1 +
    WCSm.atan2 (xi w s * Real.sin (cAng w s))
      (rho w s * Real.cos (WCSm.radians w.CRVAL2) * Real.cos (cAng w s) -
        eta w s * Real.sin (WCSm.radians w.CRVAL2) * Real.sin (cAng w s))

/-- Step 6 of `position_angle`: the bearing
`theta = atan2(sin(dalpha), cos(delta1)*tan(delta2) - sin(delta1)*cos(dalpha))`
converted to degrees. -/
noncomputable def position_angle (w : WCSm.WCS) (s1 s2 : Star) : ℝ :=
  WCSm.degrees
    (WCSm.atan2 (Real.sin (alphaSph w s2 - alphaSph w s1))
      (Real.cos (deltaSph w s1) * Real.tan (deltaSph w s2) -
        Real.sin (deltaSph w s1) * Real.cos (alphaSph w s2 - alphaSph w s1)))

/-- `separation`: the flat pixel-offset approximation
`sqrt((dx*CDELT1*3600)^2 + (dy*CDELT2*3600)^2)` in arcseconds.  Python's
`v ** 0.5` on the nonnegative float `v` is its square root. -/
noncomputable def separation (w : WCSm.WCS) (s1 s2 : Star) : ℝ :=
  Real.sqrt (((s2.x - s1.x) * WCSm.CDELT1 w * 3600) ^ 2 +
    ((s2.y - s1.y) * WCSm.CDELT2 w * 3600) ^ 2)

/-- The value `abs(-2.5 * log10(flux1/flux2))` of `delta_mag`. -/
noncomputable def delta_mag_val (s1 s2 : Star) : ℝ :=
  |(-2.5) * Real.logb 10 (s1.flux / s2.flux)|

/-- `delta_mag`: raises `ValueError` unless both fluxes are positive. -/
noncomputable def delta_mag (s1 s2 : Star) : Except PyExc ℝ :=
  if s1.flux ≤ 0 ∨ s2.flux ≤ 0 then
    .error (.valueError ("Flux values must be positive for magnitude calculation."))
  else .ok (delta_mag_val s1 s2)

/-- The WCS of the spec's measurement test:
`CD = [[1e-4, 0], [0, 1e-4]]`, `CRVAL = (180, 0)`, `CRPIX = (0, 0)`. -/
noncomputable def wTest : WCSm.WCS := ⟨1 / 10000, 0, 0, 1 / 10000, 0, 0, 180, 0⟩

/-- Star 1 of the test: pixel (0, 0), flux 100. -/
noncomputable def star1 : Star := ⟨0, 0, 100⟩

/-- Star 2 of the test: pixel (36, 0), flux 25. -/
noncomputable def star2 : Star := ⟨36, 0, 25⟩

theorem CD1_1_wTest_pos : 0 < wTest.CD1_1 := by
  show (0 : ℝ) < 1 / 10000
  norm_num

theorem CDELT1_wTest : WCSm.CDELT1 wTest = 1 / 10000 :=
  WCSm.CDELT1_of_diag rfl CD1_1_wTest_pos

theorem CDELT2_wTest : WCSm.CDELT2 wTest = 1 / 10000 :=
  WCSm.CDELT2_of_diag rfl CD1_1_wTest_pos

end Measure

/-- C10: `delta_mag` is symmetric in its two stars whenever both fluxes are
strictly positive: `|−2.5·log10(F1/F2)| = |−2.5·log10(F2/F1)|`. -/
theorem delta_mag_symm (s1 s2 : Measure.Star)
    (h1 : 0 < s1.flux) (h2 : 0 < s2.flux) :
    Measure.delta_mag s1 s2 = Measure.delta_mag s2 s1 := by
  unfold Measure.delta_mag
  rw [if_neg (by push_neg; exact ⟨h1, h2⟩), if_neg (by push_neg; exact ⟨h2, h1⟩)]
  unfold Measure.delta_mag_val
  rw [Real.logb, Real.logb,
    Real.log_div (ne_of_gt h1) (ne_of_gt h2),
    Real.log_div (ne_of_gt h2) (ne_of_gt h1)]
  congr 1
  rw [abs_mul, abs_mul]
  congr 1
  rw [abs_div, abs_div, abs_sub_comm]

/-- C10 (witness): concrete symmetric pair with fluxes 2 and 1. -/
theorem delta_mag_symm_witness :
    Measure.delta_mag ⟨0, 0, 2⟩ ⟨1, 1, 1⟩ = Measure.delta_mag ⟨1, 1, 1⟩ ⟨0, 0, 2⟩ :=
  delta_mag_symm ⟨0, 0, 2⟩ ⟨1, 1, 1⟩ (by norm_num) (by norm_num)

/-- C2: at the spec's test configuration the flat-sky separation is exactly
12.96 arcsec and the magnitude difference is within 0.001 of 1.505; but
star 1 sits exactly at the reference pixel, so the deprojection denominator
`rho1 = 0` -- Python evaluates `0.0/0.0` inside `position_angle` and raises
`ZeroDivisionError` (plain floats) or propagates NaN (numpy scalars).  In the
real model, where the vanishing numerator makes the offending quotient 0, the
computation continues to the intended limit value: exactly 90 degrees. -/
theorem measurement_example :
    Measure.separation Measure.wTest Measure.star1 Measure.star2 = 1296 / 100 ∧
    Measure.rho Measure.wTest Measure.star1 = 0 ∧
    Measure.position_angle Measure.wTest Measure.star1 Measure.star2 = 90 ∧
    Measure.delta_mag Measure.star1 Measure.star2 =
      Except.ok (Measure.delta_mag_val Measure.star1 Measure.star2) ∧
    |Measure.delta_mag_val Measure.star1 Measure.star2 - 1505 / 1000| ≤ 1 / 1000 := by
  have hxi1 : Measure.xi Measure.wTest Measure.star1 = 0 := by
    simp [Measure.xi, Measure.wTest, Measure.star1]
  have heta1 : Measure.eta Measure.wTest Measure.star1 = 0 := by
    simp [Measure.eta, Measure.wTest, Measure.star1]
  have hrho1 : Measure.rho Measure.wTest Measure.star1 = 0 := by
    rw [Measure.rho, hxi1, heta1]
    simp
  have hc1 : Measure.cAng Measure.wTest Measure.star1 = 0 := by
    rw [Measure.cAng, hrho1, Real.arctan_zero]
  have hrad0 : WCSm.radians Measure.wTest.CRVAL2 = 0 := by
    show WCSm.radians 0 = 0
    simp [WCSm.radians]
  have hd1 : Measure.deltaSph Measure.wTest Measure.star1 = 0 := by
    rw [Measure.deltaSph, hc1, hrad0, heta1]
    simp
  have ha1 : Measure.alphaSph Measure.wTest Measure.star1 =
      WCSm.radians Measure.wTest.CRVAL1 := by
    rw [Measure.alphaSph, hxi1, heta1, hrho1]
    norm_num [WCSm.atan2_zero_zero]
  have hxi2 : Measure.xi Measure.wTest Measure.star2 = 9 / 2500 := by
    simp [Measure.xi, Measure.wTest, Measure.star2]
    norm_num
  have heta2 : Measure.eta Measure.wTest Measure.star2 = 0 := by
    simp [Measure.eta, Measure.wTest, Measure.star2]
  have hrho2 : Measure.rho Measure.wTest Measure.star2 = 9 / 2500 := by
    rw [Measure.rho, hxi2, heta2]
    rw [show ((9 : ℝ) / 2500) ^ 2 + 0 ^ 2 = (9 / 2500) ^ 2 by ring,
      Real.sqrt_sq (by norm_num)]
  have hc2 : Measure.cAng Measure.wTest Measure.star2 = Real.arctan (9 / 2500) := by
    rw [Measure.cAng, hrho2]
  have hc2pos : 0 < Real.arctan (9 / 2500) := by
    have := Real.arctan_strictMono (show (0 : ℝ) < 9 / 2500 by norm_num)
    rwa [Real.arctan_zero] at this
  have hc2lt : Real.arctan (9 / 2500) < Real.pi / 2 := Real.arctan_lt_pi_div_two _
  have hd2 : Measure.deltaSph Measure.wTest Measure.star2 = 0 := by
    rw [Measure.deltaSph, hrad0, heta2]
    simp
  have ha2 : Measure.alphaSph Measure.wTest Measure.star2 =
      WCSm.radians Measure.wTest.CRVAL1 + Real.arctan (9 / 2500) := by
    rw [Measure.alphaSph, hxi2, heta2, hrho2, hc2, hrad0]
    congr 1
    rw [Real.cos_zero, Real.sin_zero,
      show (9 : ℝ) / 2500 * 1 * Real.cos (Real.arctan (9 / 2500)) -
          0 * 0 * Real.sin (Real.arctan (9 / 2500)) =
        9 / 2500 * Real.cos (Real.arctan (9 / 2500)) by ring]
    exact WCSm.atan2_same_angle (9 / 2500) (Real.arctan (9 / 2500)) (by norm_num)
      (by linarith [Real.neg_pi_div_two_lt_arctan ((9 : ℝ) / 2500)]) hc2lt
  have hsin2pos : 0 < Real.sin (Real.arctan (9 / 2500)) :=
    Real.sin_pos_of_pos_of_lt_pi hc2pos (by linarith [Real.pi_pos])
  have hPA : Measure.position_angle Measure.wTest Measure.star1 Measure.star2 = 90 := by
    rw [Measure.position_angle, ha1, ha2, hd1, hd2,
      show WCSm.radians Measure.wTest.CRVAL1 + Real.arctan (9 / 2500) -
          WCSm.radians Measure.wTest.CRVAL1 = Real.arctan (9 / 2500) by ring,
      Real.cos_zero, Real.tan_zero, Real.sin_zero,
      show (1 : ℝ) * 0 - 0 * Real.cos (Real.arctan (9 / 2500)) = 0 by ring,
      WCSm.atan2_pos_zero hsin2pos]
    exact WCSm.degrees_pi_div_two
  have hsep : Measure.separation Measure.wTest Measure.star1 Measure.star2 =
      1296 / 100 := by
    rw [Measure.separation, Measure.CDELT1_wTest, Measure.CDELT2_wTest]
    rw [show ((Measure.star2.x - Measure.star1.x) * (1 / 10000) * 3600) ^ 2 +
        ((Measure.star2.y - Measure.star1.y) * (1 / 10000) * 3600) ^ 2 =
        ((1296 : ℝ) / 100) ^ 2 by
      simp [Measure.star1, Measure.star2]
      norm_num]
    exact Real.sqrt_sq (by norm_num)
  have l2 : 0 < Real.log 2 := Real.log_pos (by norm_num)
  have l10 : 0 < Real.log 10 := Real.log_pos (by norm_num)
  have hval : Measure.delta_mag_val Measure.star1 Measure.star2 =
      5 * Real.log 2 / Real.log 10 := by
    rw [Measure.delta_mag_val,
      show Measure.star1.flux / Measure.star2.flux = (4 : ℝ) by
        simp [Measure.star1, Measure.star2]
        norm_num,
      Real.logb, show (4 : ℝ) = 2 ^ (2 : ℕ) by norm_num, Real.log_pow]
    rw [abs_mul, show |(-2.5 : ℝ)| = 2.5 by norm_num,
      abs_of_nonneg (by positivity : (0 : ℝ) ≤ (2 : ℕ) * Real.log 2 / Real.log 10)]
    push_cast
    ring
  have hA : (188 : ℝ) * Real.log 10 ≤ 625 * Real.log 2 := by
    have hnat : (10 : ℕ) ^ (188 : ℕ) ≤ 2 ^ (625 : ℕ) := by norm_num
    have hpow : (10 : ℝ) ^ (188 : ℕ) ≤ 2 ^ (625 : ℕ) := by exact_mod_cast hnat
    have hlog := (Real.log_le_log_iff (by positivity) (by positivity)).2 hpow
    rw [Real.log_pow, Real.log_pow] at hlog
    push_cast at hlog
    linarith
  have hB : (2500 : ℝ) * Real.log 2 ≤ 753 * Real.log 10 := by
    have hnat : (2 : ℕ) ^ (2500 : ℕ) ≤ 10 ^ (753 : ℕ) := by norm_num
    have hpow : (2 : ℝ) ^ (2500 : ℕ) ≤ 10 ^ (753 : ℕ) := by exact_mod_cast hnat
    have hlog := (Real.log_le_log_iff (by positivity) (by positivity)).2 hpow
    rw [Real.log_pow, Real.log_pow] at hlog
    push_cast at hlog
    linarith
  have hbound : |Measure.delta_mag_val Measure.star1 Measure.star2 - 1505 / 1000| ≤
      1 / 1000 := by
    rw [hval, abs_le]
    have key1 : 5 * Real.log 2 / Real.log 10 ≤ 1506 / 1000 := by
      rw [div_le_iff₀ l10]
      linarith
    have key2 : (1504 : ℝ) / 1000 ≤ 5 * Real.log 2 / Real.log 10 := by
      rw [le_div_iff₀ l10]
      linarith
    constructor <;> linarith
  have hdm : Measure.delta_mag Measure.star1 Measure.star2 =
      Except.ok (Measure.delta_mag_val Measure.star1 Measure.star2) := by
    rw [Measure.delta_mag, if_neg]
    push_neg
    constructor
    · show (0 : ℝ) < 100
      norm_num
    · show (0 : ℝ) < 25
      norm_num
  exact ⟨hsep, hrho1, hPA, hdm, hbound⟩

/-- C6 (amended): when the clip has converged -- the final mask of
`sigma_clipped_stats`' clip (`maxiters = 5`) is a fixed point of the clipping
pass -- re-clipping the already-clipped data with the same sigma leaves the
rejection mask unchanged. -/
theorem sigma_clip_idempotent_of_converged (d : List (Option ℚ)) (sigma : ℚ)
    (m : List Bool) (hm : m = Stats.sigma_clip_mask d sigma 5)
    (hfix : Stats.clipStep d sigma m = m) :
    Stats.sigma_clip_mask (Stats.applyMask d m) sigma 5 = m := by
  have hcov : Stats.NanCovered d m := by
    rw [hm]
    exact Stats.nanCovered_clipLoop d sigma 5 _ (Stats.nanCovered_isnanMask d)
  have hnan := Stats.isnanMask_applyMask d m hcov
  have hstep : Stats.clipStep (Stats.applyMask d m) sigma m = m := by
    unfold Stats.clipStep at hfix ⊢
    rw [Stats.survivors_applyMask]
    exact Stats.clipApply_applyMask _ _ _ _ _ hfix
  unfold Stats.sigma_clip_mask
  rw [hnan]
  show Stats.clipLoop (Stats.applyMask d m) sigma (4 + 1) m = m
  rw [Stats.clipLoop]
  by_cases he : Stats.survivors (Stats.applyMask d m) m = []
  · rw [if_pos he]
  · rw [if_neg he, if_pos hstep]

/-- C6 (witness): on `clipDataConv` with `sigma = 1` the clip converges to
`clipMaskConv`, and re-clipping the clipped data leaves that mask unchanged. -/
theorem sigma_clip_idempotent_witness :
    Stats.sigma_clip_mask (Stats.applyMask Stats.clipDataConv Stats.clipMaskConv) 1 5 =
      Stats.clipMaskConv :=
  sigma_clip_idempotent_of_converged Stats.clipDataConv 1 Stats.clipMaskConv
    (by with_unfolding_all decide) (by with_unfolding_all decide)

/-- C6 (counterexample): on `clipData` with `sigma = 3/2` the clip is still
shrinking when `maxiters = 5` is exhausted, and re-clipping the clipped result
with the same sigma rejects a further sample, so the mask changes. -/
theorem sigma_clip_not_idempotent :
    Stats.sigma_clip_mask
        (Stats.applyMask Stats.clipData (Stats.sigma_clip_mask Stats.clipData (3 / 2) 5))
        (3 / 2) 5 ≠
      Stats.sigma_clip_mask Stats.clipData (3 / 2) 5 := by with_unfolding_all decide
